import Mathlib

/-!
Shallow embedding of `fit_to_gpx.py` (garmin-helper): a pipeline converting a
FIT activity container into a GPX document.

Modelling conventions for the Python/pandas/fitparse semantics:

* Python cell values are modelled by `Value`.  `vint`/`vfloat` are numeric
  cells (floats idealised as rationals), `vnull` covers `None`/`NaN`/`NaT`,
  `vtime` stands for any value `pd.to_datetime` can interpret as a date-time
  (a `datetime` object), and `vstr` stands for non-temporal, non-numeric text
  such as a syntactically invalid timestamp string.
* `fitparse.FitFile(path)` parses the file header in its constructor and
  raises there when the input is not a valid container; this is the
  `openable` flag of `FitFile`.
* `FitFile.get_messages("record")` is a Python generator.  Retrieving the
  next message either succeeds with a field dictionary
  (`RawRecord.wellFormed`) or raises a parse error (`RawRecord.malformed`).
  By Python generator semantics, once a generator body raises, the generator
  is finished and every later `next` raises `StopIteration`; so a
  stream-level parse failure ends record iteration and all later records in
  the container are never retrieved.  `Point(**record.get_values())` is
  strict dataclass construction: it succeeds exactly when the keys of the
  dictionary are precisely the nine dataclass field names.
* A pandas DataFrame built from the list of `Point` dataclasses is modelled
  as a list of `Row`s (one per point).  `pd.DataFrame([])` of the empty list
  has no columns at all, so `df["timestamp"]` raises `KeyError`.
* Column arithmetic (`series / scalar`) maps numeric cells, propagates null
  cells as null, and raises `TypeError` on an object-dtype cell that is
  neither numeric nor null.  `pd.to_datetime` in coerce-errors mode turns
  every cell that is not interpretable as a date-time into `NaT` and never
  raises.
-/

namespace FitToGpx

/-- A Python runtime value sitting in a record field or a table cell. -/
inductive Value where
  | vnull : Value
  | vint : ℤ → Value
  | vfloat : ℚ → Value
  | vtime : ℤ → Value
  | vstr : String → Value
deriving DecidableEq, Repr

/-- The `Point` dataclass of `fit_to_gpx.py` (lines 19-29): nine fields, no
defaults.  Python dataclasses do not enforce the annotated types, so every
field holds an arbitrary runtime `Value`. -/
structure Point where
  cadence : Value
  distance : Value
  enhanced_speed : Value
  heart_rate : Value
  position_lat : Value
  position_long : Value
  speed : Value
  timestamp : Value
  unknown_88 : Value
deriving DecidableEq, Repr

/-- The nine keyword-argument names accepted by `Point(**values)`. -/
def expectedFields : List String :=
  ["cadence", "distance", "enhanced_speed", "heart_rate", "position_lat",
   "position_long", "speed", "timestamp", "unknown_88"]

/-- Field lookup in a `record.get_values()` dictionary (modelled as an
association list with distinct keys). -/
def getField (fields : List (String × Value)) (name : String) : Value :=
  (fields.lookup name).getD Value.vnull

/-- Strict dataclass construction `Point(**fields)`: succeeds iff the key set
of the dictionary is exactly the nine field names (missing keys raise a
missing-argument `TypeError`, extra keys an unexpected-keyword `TypeError`);
on success every field holds exactly the dictionary's value for its name. -/
def mkPoint (fields : List (String × Value)) : Option Point :=
  if (fields.map Prod.fst).Perm expectedFields then
    some
      { cadence := getField fields "cadence"
        distance := getField fields "distance"
        enhanced_speed := getField fields "enhanced_speed"
        heart_rate := getField fields "heart_rate"
        position_lat := getField fields "position_lat"
        position_long := getField fields "position_long"
        speed := getField fields "speed"
        timestamp := getField fields "timestamp"
        unknown_88 := getField fields "unknown_88" }
  else none

/-- One `next` on the `get_messages("record")` generator: either it yields a
message whose `get_values()` is the given dictionary, or the parser raises
(corrupt/truncated data) — which finishes the generator. -/
inductive RawRecord where
  | malformed : RawRecord
  | wellFormed : List (String × Value) → RawRecord
deriving DecidableEq, Repr

/-- Decoding one retrieved raw record into a `Point`. -/
def decodeRecord : RawRecord → Option Point
  | RawRecord.malformed => none
  | RawRecord.wellFormed fields => mkPoint fields

/-- The input container: whether `fitparse.FitFile(fit_file)` succeeds
(header parses), and the outcome of each successive `next` on the record
stream. -/
structure FitFile where
  openable : Bool
  records : List RawRecord
deriving DecidableEq, Repr

/-- Python exceptions that can escape the pipeline. -/
inductive PyError where
  | containerOpenError
  | keyError
  | typeError
deriving DecidableEq, Repr

/-- The `while True` loop of `read_fit_file` (lines 37-45).  A successful
decode is appended; a `TypeError` from strict `Point` construction is caught
and the loop continues with the generator intact; a parse error raised by
`next(records)` is also caught, but it finishes the generator, so the
following `next` raises `StopIteration` and the loop breaks — every record
after the first stream-level failure is lost. -/
def readLoop : List RawRecord → List Point
  | [] => []
  | RawRecord.malformed :: _ => []
  | RawRecord.wellFormed fields :: rest =>
      match mkPoint fields with
      | some p => p :: readLoop rest
      | none => readLoop rest

/-- `read_fit_file` (lines 32-46): open the container (fatal on failure) and
run the record loop. -/
def read_fit_file (f : FitFile) : Except PyError (List Point) :=
  if f.openable then Except.ok (readLoop f.records)
  else Except.error PyError.containerOpenError

/-- `semicircle_to_degrees` (lines 49-50), with real arithmetic idealised
over the rationals. -/
def semicircle_to_degrees (val : ℚ) : ℚ :=
  val / ((2 ^ 32) / 360)

/-- One row of the normalized table produced by `points_to_pdf`: the nine
point columns (timestamp already coerced) plus the two computed coordinate
columns. -/
structure Row where
  cadence : Value
  distance : Value
  enhanced_speed : Value
  heart_rate : Value
  position_lat : Value
  position_long : Value
  speed : Value
  timestamp : Value
  unknown_88 : Value
  latitude : Value
  longitude : Value
deriving DecidableEq, Repr

/-- Whether a cell is a date-time value that `pd.to_datetime` accepts. -/
def isDatetime : Value → Bool
  | Value.vtime _ => true
  | _ => false

/-- One cell of `pd.to_datetime` in coerce-errors mode (line 60):
interpretable date-times are kept, every other value becomes `NaT`
(modelled `vnull`); it never raises. -/
def pd_to_datetime_coerce : Value → Value
  | Value.vtime t => Value.vtime t
  | _ => Value.vnull

/-- Whether a cell can sit in a numeric (float) column: a number, or a null
that pandas stores as `NaN`. -/
def isNumericOrNull : Value → Bool
  | Value.vint _ => true
  | Value.vfloat _ => true
  | Value.vnull => true
  | _ => false

/-- One cell of the vectorised division `df[col] / ((2^32) / 360)` (lines
61-62): numbers are converted, `NaN` propagates to `NaN`, and a
non-numeric object cell makes the column operation raise `TypeError`. -/
def semicircleToDegreesCell : Value → Option Value
  | Value.vint n => some (Value.vfloat (semicircle_to_degrees (n : ℚ)))
  | Value.vfloat q => some (Value.vfloat (semicircle_to_degrees q))
  | Value.vnull => some Value.vnull
  | _ => none

/-- The normalization of one table row: coerce the timestamp, compute the
two coordinate columns, keep every other column untouched.  `none` when the
coordinate division raises. -/
def normalizeRow (p : Point) : Option Row := do
  let lat ← semicircleToDegreesCell p.position_lat
  let long ← semicircleToDegreesCell p.position_long
  pure
    { cadence := p.cadence
      distance := p.distance
      enhanced_speed := p.enhanced_speed
      heart_rate := p.heart_rate
      position_lat := p.position_lat
      position_long := p.position_long
      speed := p.speed
      timestamp := pd_to_datetime_coerce p.timestamp
      unknown_88 := p.unknown_88
      latitude := lat
      longitude := long }

/-- Total description of a normalized row, agreeing with `normalizeRow`
whenever the position cells are numeric-or-null. -/
def normalizeRowTotal (p : Point) : Row :=
  { cadence := p.cadence
    distance := p.distance
    enhanced_speed := p.enhanced_speed
    heart_rate := p.heart_rate
    position_lat := p.position_lat
    position_long := p.position_long
    speed := p.speed
    timestamp := pd_to_datetime_coerce p.timestamp
    unknown_88 := p.unknown_88
    latitude := (semicircleToDegreesCell p.position_lat).getD Value.vnull
    longitude := (semicircleToDegreesCell p.position_long).getD Value.vnull }

/-- Normalization of all rows of the frame; `none` as soon as one of the
column operations raises. -/
def mapRows : List Point → Option (List Row)
  | [] => some []
  | p :: ps => do
    let r ← normalizeRow p
    let rs ← mapRows ps
    pure (r :: rs)

/-- `points_to_pdf` (lines 53-63).  `pd.DataFrame` of the empty point list
yields a frame with no columns at all, so the `df` subscript on
`timestamp` raises `KeyError`; otherwise the frame has one row per point
and the three column operations run (raising `TypeError` when a position
column holds a non-numeric, non-null object). -/
def points_to_pdf (points : List Point) : Except PyError (List Row) :=
  match points with
  | [] => Except.error PyError.keyError
  | _ =>
    match mapRows points with
    | some rows => Except.ok rows
    | none => Except.error PyError.typeError

/-- A `gpxpy.gpx.GPXTrackPoint`. -/
structure GPXTrackPoint where
  latitude : Value
  longitude : Value
  time : Value
deriving DecidableEq, Repr

/-- A `gpxpy.gpx.GPXTrackSegment`. -/
structure GPXTrackSegment where
  points : List GPXTrackPoint
deriving DecidableEq, Repr

/-- A `gpxpy.gpx.GPXTrack`. -/
structure GPXTrack where
  segments : List GPXTrackSegment
deriving DecidableEq, Repr

/-- A `gpxpy.gpx.GPX` document. -/
structure GPX where
  tracks : List GPXTrack
deriving DecidableEq, Repr

/-- The `dropna` keep-condition on the subset latitude, longitude,
timestamp (line 78): the row survives iff none of the three cells is null. -/
def notnaRow (r : Row) : Bool :=
  !(r.latitude == Value.vnull) && !(r.longitude == Value.vnull) &&
    !(r.timestamp == Value.vnull)

/-- `DataFrame.dropna` over rows restricted to the three subset columns:
keeps, in order, exactly the rows with no null among them. -/
def dropnaSubset (rows : List Row) : List Row :=
  rows.filter notnaRow

/-- `DataFrame.copy`: a fresh frame holding the same rows. -/
def dfCopy (rows : List Row) : List Row := rows

/-- Building one `GPXTrackPoint` from a surviving row (lines 81-85). -/
def rowToTrackPoint (r : Row) : GPXTrackPoint :=
  { latitude := r.latitude, longitude := r.longitude, time := r.timestamp }

/-- `pdf_to_gpx` (lines 66-87): one fresh track appended to the document,
one fresh segment appended to the track, then one track point per row
surviving the filter, in row order. -/
def pdf_to_gpx (df : List Row) : GPX :=
  let kept := dropnaSubset (dfCopy df)
  { tracks := [{ segments := [{ points := kept.map rowToTrackPoint }] }] }

/-- The call `pdf_to_gpx(df)` as the caller observes it: the returned
document together with the contents of the caller's table after the call.
Line 78 rebinds the local name `df` to `df.copy().dropna(...)`; no in-place
operation is applied to the argument, so the caller's table is unchanged. -/
def pdf_to_gpx_call (df : List Row) : GPX × List Row :=
  (pdf_to_gpx df, df)

/-- The pipeline body of `main` (lines 114-123) after argument parsing: the
three stages in sequence.  The output path is opened and written (lines
122-123) only after all three stages return, so an `Except.error` outcome
means the process terminated by an uncaught exception with no output file
produced. -/
def main (input : FitFile) : Except PyError GPX := do
  let points ← read_fit_file input
  let df ← points_to_pdf points
  Except.ok (pdf_to_gpx df)

/-- All track points of a document, across tracks and segments. -/
def allPoints (g : GPX) : List GPXTrackPoint :=
  (g.tracks.flatMap GPXTrack.segments).flatMap GPXTrackSegment.points

/-- The records the loop actually retrieves from the generator: the prefix
of the stream up to (and excluding) the first stream-level parse failure. -/
def retrievedRecords (rs : List RawRecord) : List RawRecord :=
  rs.takeWhile fun r =>
    match r with
    | RawRecord.malformed => false
    | RawRecord.wellFormed _ => true

/-- `Interleaving g b l`: the stream `l` is an interleaving of the records
`g` and the records `b`, each kept in its own relative order. -/
inductive Interleaving : List RawRecord → List RawRecord → List RawRecord → Prop where
  | nil : Interleaving [] [] []
  | consLeft (r : RawRecord) {g b l : List RawRecord} :
      Interleaving g b l → Interleaving (r :: g) b (r :: l)
  | consRight (r : RawRecord) {g b l : List RawRecord} :
      Interleaving g b l → Interleaving g (r :: b) (r :: l)

/-- A `get_values()` dictionary carrying exactly the nine expected fields. -/
def goodFields : List (String × Value) :=
  [("cadence", Value.vint 90), ("distance", Value.vfloat 10),
   ("enhanced_speed", Value.vfloat 5), ("heart_rate", Value.vint 120),
   ("position_lat", Value.vint 1073741824), ("position_long", Value.vint 0),
   ("speed", Value.vfloat 5), ("timestamp", Value.vtime 1600000000),
   ("unknown_88", Value.vint 0)]

/-- A `get_values()` dictionary whose field set does not match the `Point`
dataclass (missing fields), so strict construction fails. -/
def badFields : List (String × Value) :=
  [("cadence", Value.vint 90)]

/-- The point that strict construction builds from `goodFields`. -/
def goodPoint : Point :=
  { cadence := Value.vint 90, distance := Value.vfloat 10,
    enhanced_speed := Value.vfloat 5, heart_rate := Value.vint 120,
    position_lat := Value.vint 1073741824, position_long := Value.vint 0,
    speed := Value.vfloat 5, timestamp := Value.vtime 1600000000,
    unknown_88 := Value.vint 0 }

/-- A decoded point whose timestamp is a syntactically invalid string. -/
def badTsPoint : Point :=
  { cadence := Value.vint 90, distance := Value.vfloat 10,
    enhanced_speed := Value.vfloat 5, heart_rate := Value.vint 120,
    position_lat := Value.vint 1073741824, position_long := Value.vint 0,
    speed := Value.vfloat 5, timestamp := Value.vstr "not-a-date",
    unknown_88 := Value.vint 0 }

/-- A table row with all three filter columns null. -/
def nullRow : Row :=
  { cadence := Value.vnull, distance := Value.vnull,
    enhanced_speed := Value.vnull, heart_rate := Value.vnull,
    position_lat := Value.vnull, position_long := Value.vnull,
    speed := Value.vnull, timestamp := Value.vnull,
    unknown_88 := Value.vnull, latitude := Value.vnull,
    longitude := Value.vnull }

end FitToGpx

namespace FitToGpx

/-! ### Helper lemmas -/

theorem lookup_isSome_of_mem_keys (l : List (String × Value)) (a : String)
    (h : a ∈ l.map Prod.fst) : ∃ v, l.lookup a = some v := by
  induction l with
  | nil => simp at h
  | cons kv tl ih =>
    rw [List.map_cons] at h
    by_cases he : a = kv.1
    · exact ⟨kv.2, by simp [List.lookup, he]⟩
    · rcases List.mem_cons.mp h with h1 | h2
      · exact absurd h1 he
      · rcases ih h2 with ⟨v, hv⟩
        have hne : (a == kv.1) = false := beq_eq_false_iff_ne.mpr he
        exact ⟨v, by simp [List.lookup, hne, hv]⟩

theorem getField_lookup (fields : List (String × Value)) (a : String)
    (h : a ∈ fields.map Prod.fst) :
    fields.lookup a = some (getField fields a) := by
  obtain ⟨v, hv⟩ := lookup_isSome_of_mem_keys fields a h
  simp [getField, hv]

theorem readLoop_eq_filterMap_retrieved (rs : List RawRecord) :
    readLoop rs = (retrievedRecords rs).filterMap decodeRecord := by
  induction rs with
  | nil => rfl
  | cons r rest ih =>
    cases r with
    | malformed => rfl
    | wellFormed fields =>
      cases hm : mkPoint fields with
      | none =>
        simp [readLoop, retrievedRecords, List.takeWhile_cons, decodeRecord, hm] at ih ⊢
        exact ih
      | some p =>
        simp [readLoop, retrievedRecords, List.takeWhile_cons, decodeRecord, hm] at ih ⊢
        exact ih

theorem length_filterMap_decode_of_isSome (l : List RawRecord)
    (h : ∀ r ∈ l, (decodeRecord r).isSome) :
    (l.filterMap decodeRecord).length = l.length := by
  induction l with
  | nil => rfl
  | cons r rest ih =>
    rcases Option.isSome_iff_exists.mp (h r (List.mem_cons_self r rest)) with ⟨p, hp⟩
    simp [List.filterMap_cons, hp, ih fun x hx => h x (List.mem_cons_of_mem r hx)]

theorem allPoints_pdf_to_gpx (df : List Row) :
    allPoints (pdf_to_gpx df) = (dropnaSubset df).map rowToTrackPoint := by
  simp [allPoints, pdf_to_gpx, dfCopy]

end FitToGpx

namespace FitToGpx

theorem cell_isSome (v : Value) (h : isNumericOrNull v = true) :
    ∃ w, semicircleToDegreesCell v = some w := by
  cases v <;> simp [isNumericOrNull] at h <;> simp [semicircleToDegreesCell]

theorem normalizeRow_eq_total (p : Point)
    (h1 : isNumericOrNull p.position_lat = true)
    (h2 : isNumericOrNull p.position_long = true) :
    normalizeRow p = some (normalizeRowTotal p) := by
  obtain ⟨w1, hw1⟩ := cell_isSome _ h1
  obtain ⟨w2, hw2⟩ := cell_isSome _ h2
  simp [normalizeRow, normalizeRowTotal, hw1, hw2]

theorem mapRows_eq_map (f : Point → Row) (l : List Point)
    (h : ∀ p ∈ l, normalizeRow p = some (f p)) :
    mapRows l = some (l.map f) := by
  induction l with
  | nil => rfl
  | cons p ps ih =>
    simp [mapRows, h p (List.mem_cons_self p ps),
      ih fun q hq => h q (List.mem_cons_of_mem p hq)]

theorem points_to_pdf_ok (points : List Point) (hne : points ≠ [])
    (hty : ∀ p ∈ points,
      isNumericOrNull p.position_lat = true ∧ isNumericOrNull p.position_long = true) :
    points_to_pdf points = Except.ok (points.map normalizeRowTotal) := by
  have hm : mapRows points = some (points.map normalizeRowTotal) :=
    mapRows_eq_map normalizeRowTotal points fun p hp =>
      normalizeRow_eq_total p (hty p hp).1 (hty p hp).2
  cases points with
  | nil => exact absurd rfl hne
  | cons p ps => simp [points_to_pdf, hm]

theorem coerce_not_datetime (v : Value) (h : isDatetime v = false) :
    pd_to_datetime_coerce v = Value.vnull := by
  cases v <;> simp [isDatetime] at h ⊢ <;> rfl

theorem not_mem_points_of_notna_false (rows : List Row) (r : Row)
    (h : notnaRow r = false) :
    rowToTrackPoint r ∉ allPoints (pdf_to_gpx rows) := by
  rw [allPoints_pdf_to_gpx]
  intro hmem
  obtain ⟨s, hsmem, hseq⟩ := List.mem_map.mp hmem
  have hs : notnaRow s = true := (List.mem_filter.mp hsmem).2
  have h1 : s.latitude = r.latitude := congrArg GPXTrackPoint.latitude hseq
  have h2 : s.longitude = r.longitude := congrArg GPXTrackPoint.longitude hseq
  have h3 : s.timestamp = r.timestamp := congrArg GPXTrackPoint.time hseq
  simp [notnaRow, h1, h2, h3] at hs h
  exact hs.2 (h hs.1.1 hs.1.2)

end FitToGpx

namespace FitToGpx

/-! ### Claim theorems -/

/-- C2: for every semicircle integer value `s`, `semicircle_to_degrees s`
equals `s * 180 / 2 ^ 31`; in particular the value is `180` at `2 ^ 31`,
`0` at `0`, and `-180` at `-(2 ^ 31)`. -/
theorem semicircle_conversion_exact :
    (∀ s : ℤ, semicircle_to_degrees (s : ℚ) = (s : ℚ) * 180 / 2 ^ 31)
    ∧ semicircle_to_degrees ((2 : ℚ) ^ 31) = 180
    ∧ semicircle_to_degrees 0 = 0
    ∧ semicircle_to_degrees (-(2 : ℚ) ^ 31) = -180 := by
  refine ⟨fun s => ?_, by norm_num [semicircle_to_degrees],
    by norm_num [semicircle_to_degrees], by norm_num [semicircle_to_degrees]⟩
  rw [semicircle_to_degrees]
  field_simp
  ring

/-- C3: the output point list is exactly the image, in order, of the rows
surviving the null filter; the surviving rows are a sublist of the table
(order preserved), each surviving row contributes exactly one point, and a
row with a null among latitude, longitude, timestamp never contributes. -/
theorem row_filtering_exact (df : List Row) :
    allPoints (pdf_to_gpx df) = (dropnaSubset df).map rowToTrackPoint
    ∧ (dropnaSubset df).Sublist df
    ∧ (allPoints (pdf_to_gpx df)).length = (dropnaSubset df).length
    ∧ ∀ r ∈ df, notnaRow r = false →
        rowToTrackPoint r ∉ allPoints (pdf_to_gpx df) := by
  refine ⟨allPoints_pdf_to_gpx df, List.filter_sublist df, ?_, ?_⟩
  · rw [allPoints_pdf_to_gpx df, List.length_map]
  · intro r _ hr
    exact not_mem_points_of_notna_false df r hr

/-- C3 witness: the all-null row of a one-row table contributes no point. -/
theorem row_filtering_exact_witness :
    rowToTrackPoint nullRow ∉ allPoints (pdf_to_gpx [nullRow]) :=
  (row_filtering_exact [nullRow]).2.2.2 nullRow (by simp) (by decide)

/-- C4: on an openable container holding zero records the pipeline does not
produce the one-track, one-segment, zero-point document the spec promises:
`pd.DataFrame([])` has no columns, so `points_to_pdf` raises `KeyError` on
the `timestamp` column and `main` terminates before writing any output. -/
theorem empty_container_key_error :
    main { openable := true, records := [] } = Except.error PyError.keyError := rfl

/-- C5: for every table the document has exactly one track, that track list
carries exactly one segment in total, and the number of points equals the
number of rows surviving the filter. -/
theorem single_track_single_segment (df : List Row) :
    (pdf_to_gpx df).tracks.length = 1
    ∧ ((pdf_to_gpx df).tracks.flatMap GPXTrack.segments).length = 1
    ∧ (allPoints (pdf_to_gpx df)).length = (dropnaSubset df).length := by
  refine ⟨rfl, rfl, ?_⟩
  rw [allPoints_pdf_to_gpx df, List.length_map]

/-- C9: when the container cannot be opened, the pipeline propagates the
fatal open error and never reaches the output-writing step: `main` yields no
document. -/
theorem container_open_fatal (f : FitFile) (h : f.openable = false) :
    main f = Except.error PyError.containerOpenError
    ∧ ∀ g : GPX, main f ≠ Except.ok g := by
  have hm : main f = Except.error PyError.containerOpenError := by
    have hr : read_fit_file f = Except.error PyError.containerOpenError := by
      simp [read_fit_file, h]
    show read_fit_file f >>= (fun points => points_to_pdf points >>= fun df => Except.ok (pdf_to_gpx df)) = Except.error PyError.containerOpenError
    rw [hr]
    rfl
  refine ⟨hm, fun g hg => ?_⟩
  rw [hm] at hg
  exact Except.noConfusion hg

/-- C9 witness: a concrete unopenable container. -/
theorem container_open_fatal_witness :
    main { openable := false, records := [] } = Except.error PyError.containerOpenError :=
  (container_open_fatal { openable := false, records := [] } rfl).1

/-- C10: the caller's table after `pdf_to_gpx` returns is the table passed
in — every row, including rows with nulls in the filter columns, is still
present — because line 78 filters a copy bound to a local name. -/
theorem pdf_to_gpx_table_unchanged (df : List Row) :
    (pdf_to_gpx_call df).2 = df
    ∧ (∀ r ∈ df, r ∈ (pdf_to_gpx_call df).2)
    ∧ (pdf_to_gpx_call df).1 = pdf_to_gpx df :=
  ⟨rfl, fun _ hr => hr, rfl⟩

/-- C10 witness: an all-null row survives in the caller's table. -/
theorem pdf_to_gpx_table_unchanged_witness :
    nullRow ∈ (pdf_to_gpx_call [nullRow]).2 :=
  (pdf_to_gpx_table_unchanged [nullRow]).2.1 nullRow (by simp)

end FitToGpx

namespace FitToGpx

/-- C1 (amended): for a stream interleaving records that decode successfully
with records that are retrieved but fail strict `Point` construction,
`read_fit_file` returns exactly the points of the former, in original
relative order, regardless of where or how many the latter are.  (As stated
over stream-level parse failures the claim is false: see the truncation
counterexample.) -/
theorem read_fit_file_resilient (goods bads stream : List RawRecord)
    (hmix : Interleaving goods bads stream)
    (hg : ∀ r ∈ goods, (decodeRecord r).isSome)
    (hb : ∀ r ∈ bads, ∃ fields, r = RawRecord.wellFormed fields ∧ mkPoint fields = none) :
    read_fit_file { openable := true, records := stream }
        = Except.ok (goods.filterMap decodeRecord)
    ∧ (goods.filterMap decodeRecord).length = goods.length := by
  have hloop : ∀ g b s, Interleaving g b s →
      (∀ r ∈ g, (decodeRecord r).isSome) →
      (∀ r ∈ b, ∃ fields, r = RawRecord.wellFormed fields ∧ mkPoint fields = none) →
      readLoop s = g.filterMap decodeRecord := by
    intro g b s hm
    induction hm with
    | nil => intro _ _; rfl
    | consLeft r hm ih =>
      intro hg hb
      rcases r with _ | fields
      · have := hg _ (List.mem_cons_self _ _)
        simp [decodeRecord] at this
      · have hsome := hg _ (List.mem_cons_self _ _)
        rw [Option.isSome_iff_exists] at hsome
        obtain ⟨p, hp⟩ := hsome
        have hp' : mkPoint fields = some p := hp
        simp [readLoop, hp', List.filterMap_cons, decodeRecord,
          ih (fun x hx => hg x (List.mem_cons_of_mem _ hx)) hb]
    | consRight r hm ih =>
      intro hg hb
      obtain ⟨fields, rfl, hnone⟩ := hb _ (List.mem_cons_self _ _)
      simp [readLoop, hnone,
        ih hg (fun x hx => hb x (List.mem_cons_of_mem _ hx))]
  refine ⟨?_, length_filterMap_decode_of_isSome goods hg⟩
  show Except.ok (readLoop stream) = _
  rw [hloop goods bads stream hmix hg hb]

/-- C1 witness: one construction-failing record interleaved before one
decodable record; the decodable record alone is returned. -/
theorem read_fit_file_resilient_witness :
    read_fit_file
        ⟨true, [RawRecord.wellFormed badFields, RawRecord.wellFormed goodFields]⟩
      = Except.ok ([RawRecord.wellFormed goodFields].filterMap decodeRecord) :=
  (read_fit_file_resilient [RawRecord.wellFormed goodFields]
    [RawRecord.wellFormed badFields]
    [RawRecord.wellFormed badFields, RawRecord.wellFormed goodFields]
    (Interleaving.consRight _ (Interleaving.consLeft _ Interleaving.nil))
    (by decide)
    (fun r hr => by
      simp at hr
      exact ⟨badFields, hr, by decide⟩)).1

/-- C1 counterexample: a container with one malformed record (N = 1, M = 1,
the malformed record first) returns zero Point Records, not one — a
stream-level parse failure finishes the `get_messages` generator, so the
well-formed record after it is never retrieved. -/
theorem read_fit_file_truncation_cex :
    (decodeRecord (RawRecord.wellFormed goodFields)).isSome = true
    ∧ decodeRecord RawRecord.malformed = none
    ∧ read_fit_file ⟨true, [RawRecord.malformed, RawRecord.wellFormed goodFields]⟩
        = Except.ok [] :=
  ⟨by decide, rfl, rfl⟩

end FitToGpx

namespace FitToGpx

/-- C7 (amended): a record retrieved from the stream is accepted into the
extractor's output iff its strict construction succeeds; strict construction
succeeds iff the raw field-name multiset is exactly the nine expected names;
and on success every `Point` field is exactly the raw record's value for
that name — no partial or default-filled point is synthesized.  (As stated
over all records of the container the claim is false: records after a
stream-level parse failure are never retrieved; see the counterexample.) -/
theorem strict_construction_iff :
    (∀ fields : List (String × Value),
        (mkPoint fields).isSome ↔ (fields.map Prod.fst).Perm expectedFields)
    ∧ (∀ (fields : List (String × Value)) (p : Point), mkPoint fields = some p →
        fields.lookup "cadence" = some p.cadence
        ∧ fields.lookup "distance" = some p.distance
        ∧ fields.lookup "enhanced_speed" = some p.enhanced_speed
        ∧ fields.lookup "heart_rate" = some p.heart_rate
        ∧ fields.lookup "position_lat" = some p.position_lat
        ∧ fields.lookup "position_long" = some p.position_long
        ∧ fields.lookup "speed" = some p.speed
        ∧ fields.lookup "timestamp" = some p.timestamp
        ∧ fields.lookup "unknown_88" = some p.unknown_88)
    ∧ (∀ (rs : List RawRecord) (p : Point),
        p ∈ readLoop rs ↔ ∃ r ∈ retrievedRecords rs, decodeRecord r = some p) := by
  refine ⟨fun fields => ?_, fun fields p hp => ?_, fun rs p => ?_⟩
  · by_cases h : (fields.map Prod.fst).Perm expectedFields <;> simp [mkPoint, h]
  · by_cases h : (fields.map Prod.fst).Perm expectedFields
    · simp [mkPoint, h] at hp
      have hmem : ∀ a ∈ expectedFields, a ∈ fields.map Prod.fst :=
        fun a ha => h.mem_iff.mpr ha
      subst hp
      refine ⟨?_, ?_, ?_, ?_, ?_, ?_, ?_, ?_, ?_⟩ <;>
        exact getField_lookup fields _ (hmem _ (by decide))
    · simp [mkPoint, h] at hp
  · rw [readLoop_eq_filterMap_retrieved]
    exact List.mem_filterMap

/-- C7 witness: strict construction from `goodFields` yields exactly the
looked-up cadence value. -/
theorem strict_construction_iff_witness :
    goodFields.lookup "cadence" = some goodPoint.cadence :=
  (strict_construction_iff.2.1 goodFields goodPoint (by decide)).1

/-- C7 counterexample: a raw record whose strict construction succeeds is
not accepted into the output when a malformed record precedes it in the
stream. -/
theorem strict_construction_cex :
    mkPoint goodFields = some goodPoint
    ∧ goodPoint ∉ readLoop [RawRecord.malformed, RawRecord.wellFormed goodFields] :=
  ⟨by decide, by simp [readLoop]⟩

end FitToGpx

namespace FitToGpx

/-- C6 (amended): for every non-empty sequence of Point Records whose
position fields are in the documented integer-or-null domain, the
normalizer returns a table with exactly one row per record, and a null
`position_lat`/`position_long` yields a null `latitude`/`longitude` in that
row rather than an error.  (As stated over every sequence the claim is
false: the empty sequence raises `KeyError`; see the counterexample.) -/
theorem normalizer_one_row_per_record (points : List Point)
    (hne : points ≠ [])
    (hty : ∀ p ∈ points,
      isNumericOrNull p.position_lat = true ∧ isNumericOrNull p.position_long = true) :
    points_to_pdf points = Except.ok (points.map normalizeRowTotal)
    ∧ (points.map normalizeRowTotal).length = points.length
    ∧ (∀ p : Point, p.position_lat = Value.vnull →
        (normalizeRowTotal p).latitude = Value.vnull)
    ∧ (∀ p : Point, p.position_long = Value.vnull →
        (normalizeRowTotal p).longitude = Value.vnull) := by
  refine ⟨points_to_pdf_ok points hne hty, List.length_map _ _, ?_, ?_⟩
  · intro p hp
    simp [normalizeRowTotal, hp, semicircleToDegreesCell]
  · intro p hp
    simp [normalizeRowTotal, hp, semicircleToDegreesCell]

/-- C6 witness: a single decoded point normalizes to a single row. -/
theorem normalizer_one_row_witness :
    points_to_pdf [goodPoint] = Except.ok [normalizeRowTotal goodPoint] :=
  (normalizer_one_row_per_record [goodPoint] (by decide) (by decide)).1

/-- C6 counterexample: on the empty sequence of Point Records the
normalizer does not produce a table at all — `pd.DataFrame([])` has no
`timestamp` column, so the subscript raises `KeyError`. -/
theorem normalizer_empty_cex :
    ¬ ∃ rows : List Row, points_to_pdf [] = Except.ok rows := by
  rintro ⟨rows, h⟩
  have he : points_to_pdf ([] : List Point) = Except.error PyError.keyError := rfl
  rw [he] at h
  exact Except.noConfusion h

/-- C8: a row whose timestamp value is not interpretable as a date-time gets
a null timestamp from the (non-raising) coercion, fails the null filter, and
its track point never appears in the output document. -/
theorem invalid_timestamp_row_excluded (points : List Point) (p : Point)
    (hp : p ∈ points)
    (hty : ∀ q ∈ points,
      isNumericOrNull q.position_lat = true ∧ isNumericOrNull q.position_long = true)
    (hts : isDatetime p.timestamp = false) :
    points_to_pdf points = Except.ok (points.map normalizeRowTotal)
    ∧ (normalizeRowTotal p).timestamp = Value.vnull
    ∧ notnaRow (normalizeRowTotal p) = false
    ∧ rowToTrackPoint (normalizeRowTotal p)
        ∉ allPoints (pdf_to_gpx (points.map normalizeRowTotal)) := by
  have hcoerce : (normalizeRowTotal p).timestamp = Value.vnull :=
    coerce_not_datetime p.timestamp hts
  have hnotna : notnaRow (normalizeRowTotal p) = false := by
    simp [notnaRow, hcoerce]
  exact ⟨points_to_pdf_ok points (List.ne_nil_of_mem hp) hty, hcoerce, hnotna,
    not_mem_points_of_notna_false _ _ hnotna⟩

/-- C8 witness: the invalid-string timestamp point gets a null timestamp and
fails the filter. -/
theorem invalid_timestamp_row_excluded_witness :
    (normalizeRowTotal badTsPoint).timestamp = Value.vnull
    ∧ notnaRow (normalizeRowTotal badTsPoint) = false := by
  have h := invalid_timestamp_row_excluded [badTsPoint] badTsPoint
    (by decide) (by decide) (by decide)
  exact ⟨h.2.1, h.2.2.1⟩

end FitToGpx
